import Mathlib

/-!
# Verification of the llm0-gateway-starter dispatch core

A shallow embedding, in Lean 4, of the gateway's dispatch core:

* the exact-match cache fingerprint (`internal/gateway/cache/cache.go`),
* the failover orchestrator (`internal/gateway/providers/manager.go`),
* the Anthropic request translation (`anthropic.go`, `convertRequest`),
* the rate limiter (`internal/shared/redis`, `CheckRateLimit`) and the
  rate-limit middleware (`internal/gateway/handlers/middleware.go`),
* the chat handler (`handlers`, `HandleChatCompletion` / `handleStreamingChat`
  / `calculateCost`), with its externally visible effects made explicit.

Go machine floats carried by requests/responses are modelled as rationals
(none of the verified properties computes with them beyond `0 * x = 0`);
Go `error` values are modelled as their message strings, which is faithful
here because the orchestrator classifies errors exclusively by substring
search on `err.Error()`.  Network, clock and store failures are supplied by
explicit oracles.
-/

/-! ## Basic string machinery (Go `strings.Contains` / `strings.HasPrefix`) -/

/-- Does the character list `l` start with `pat`? (Go `strings.HasPrefix`,
on exploded strings.) -/
def listStartsWith : List Char → List Char → Bool
  | _, [] => true
  | [], _ :: _ => false
  | a :: as, b :: bs => a == b && listStartsWith as bs

/-- Does `pat` occur contiguously inside `l`? (Go `strings.Contains`, on
exploded strings.) -/
def listContainsSeq : List Char → List Char → Bool
  | [], pat => pat.isEmpty
  | l@(_ :: tail), pat => listStartsWith l pat || listContainsSeq tail pat

/-- Go `strings.Contains`. -/
def goStrContains (s pat : String) : Bool :=
  listContainsSeq s.data pat.data

/-- Go `strings.HasPrefix`. -/
def goStrStartsWith (s pat : String) : Bool :=
  listStartsWith s.data pat.data

theorem listStartsWith_nil (l : List Char) : listStartsWith l [] = true := by
  cases l <;> rfl

theorem listContainsSeq_nil (l : List Char) : listContainsSeq l [] = true := by
  cases l <;> simp [listContainsSeq, List.isEmpty, listStartsWith_nil]

theorem listStartsWith_append {l pat : List Char} (b : List Char)
    (h : listStartsWith l pat = true) : listStartsWith (l ++ b) pat = true := by
  induction pat generalizing l with
  | nil => exact listStartsWith_nil _
  | cons p ps ih =>
    cases l with
    | nil => simp [listStartsWith] at h
    | cons a as =>
      simp only [listStartsWith, Bool.and_eq_true] at h
      simp only [List.cons_append, listStartsWith, Bool.and_eq_true]
      exact ⟨h.1, ih h.2⟩

theorem listContainsSeq_append_of_left {l : List Char} (b : List Char)
    {pat : List Char} (h : listContainsSeq l pat = true) :
    listContainsSeq (l ++ b) pat = true := by
  induction l with
  | nil =>
    simp only [listContainsSeq, List.isEmpty_iff] at h
    subst h
    exact listContainsSeq_nil _
  | cons a as ih =>
    simp only [listContainsSeq, Bool.or_eq_true] at h ⊢
    rcases h with h | h
    · exact Or.inl (listStartsWith_append b h)
    · exact Or.inr (ih h)

theorem string_data_append (a b : String) : (a ++ b).data = a.data ++ b.data := by
  cases a; cases b; rfl

theorem goStrContains_append_of_left (a b pat : String)
    (h : goStrContains a pat = true) : goStrContains (a ++ b) pat = true := by
  unfold goStrContains at h ⊢
  rw [string_data_append]
  exact listContainsSeq_append_of_left _ h

/-! ## Data model

`ChatRequest` mirrors `internal/gateway/providers/types.go`:

```go
type ChatRequest struct {
    Model       string
    Messages    []openai.ChatCompletionMessage
    Temperature *float32
    MaxTokens   *int
    TopP        *float32
    Stream      bool
}
```

The optional fields are Go pointers; a non-nil pointer is modelled as a
`GoPtr`: a heap address together with the pointed-to value.  Messages carry
the two fields the gateway ever reads or writes (`Role`, `Content`). -/

/-- A non-nil Go pointer: its heap address and the value it points to. -/
structure GoPtr (α : Type) where
  addr : Nat
  val : α
  deriving DecidableEq, Repr

/-- One chat message (`role`, `content`), as in the unified data model. -/
structure ChatMessage where
  role : String
  content : String
  deriving DecidableEq, Repr

/-- The unified chat request (`providers.ChatRequest`). -/
structure ChatRequest where
  model : String
  messages : List ChatMessage
  temperature : Option (GoPtr Rat)
  maxTokens : Option (GoPtr Int)
  topP : Option (GoPtr Rat)
  stream : Bool
  deriving DecidableEq, Repr

/-- Token usage (`openai.Usage`). -/
structure Usage where
  promptTokens : Int
  completionTokens : Int
  totalTokens : Int
  deriving DecidableEq, Repr

/-- One response choice. -/
structure Choice where
  index : Nat
  message : ChatMessage
  finishReason : String
  deriving DecidableEq, Repr

/-- The unified chat response (`providers.ChatResponse`); `costUSD` is a
rational standing for the Go float64. -/
structure ChatResponse where
  id : String
  object : String
  created : Int
  model : String
  choices : List Choice
  usage : Usage
  latencyMs : Int
  costUSD : Rat
  deriving DecidableEq, Repr

/-! ## Cache fingerprint (`cache.go`, `generateCacheKey`)

```go
keyData := fmt.Sprintf("%s:%v:%v:%v:%v",
    req.Model, req.Messages, req.Temperature, req.MaxTokens, req.TopP)
hash := sha256.Sum256([]byte(keyData))
return "cache:exact:" + hex.EncodeToString(hash[:])
```

Go's `%v` on a pointer to a scalar (`*float32`, `*int`) prints the pointer's
hexadecimal address (`0xc000014098`), not the value; a nil pointer prints
`<nil>`.  `%v` on a slice of structs prints the field values
(`[{user hi} {assistant hello}]`).  `goFmtPtr`/`goFmtMessages` reproduce
that.  SHA-256 itself is kept as a parameter `sha`: every property proved
or refuted below factors through the pre-image string `keyData`. -/

/-- Go `fmt` `%v` of a possibly-nil pointer to a scalar: the address in
hex for non-nil, `<nil>` for nil. -/
def goFmtPtr {α : Type} : Option (GoPtr α) → String
  | none => "<nil>"
  | some p => "0x" ++ String.mk (Nat.toDigits 16 p.addr)

/-- Go `fmt` `%v` of the message slice. -/
def goFmtMessages (msgs : List ChatMessage) : String :=
  "[" ++ String.intercalate " "
      (msgs.map fun m => "\x7b" ++ m.role ++ " " ++ m.content ++ "\x7d") ++ "]"

/-- The string that `generateCacheKey` feeds to SHA-256. -/
def keyData (req : ChatRequest) : String :=
  req.model ++ ":" ++ goFmtMessages req.messages ++ ":" ++
    goFmtPtr req.temperature ++ ":" ++ goFmtPtr req.maxTokens ++ ":" ++
    goFmtPtr req.topP

/-- `generateCacheKey`, with the hash function as an explicit parameter. -/
def generateCacheKey (sha : String → String) (req : ChatRequest) : String :=
  "cache:exact:" ++ sha (keyData req)

/-! ## Provider manager and failover orchestrator (`manager.go`)

Provider objects are identified by their registry name (`"openai"`,
`"anthropic"`, `"google"`); the behaviour of a provider's `ChatCompletion`
is an oracle `call : String → ChatRequest → Except String ChatResponse`
supplied to the orchestrator, the `Except.error` carrying the Go error's
message string. -/

/-- The provider-credential part of `config.Config`; an empty string means
the key is absent. -/
structure Config where
  openAIKey : String
  anthropicKey : String
  geminiKey : String
  deriving DecidableEq, Repr

/-- The manager state: which provider names are configured, and the static
failover table. -/
structure Manager where
  providers : List String
  failover : String → List String

/-- `setupFailoverChains` (`manager.go` lines 42-55), as a lookup with the
`chain, ok := m.failover[model]; if !ok return []` default folded in. -/
def setupFailoverChains : String → List String := fun model =>
  if model == "gpt-4o" then ["claude-sonnet-4-5-20250929", "gemini-2.5-pro"]
  else if model == "gpt-4o-mini" then ["claude-haiku-4-5-20251001", "gemini-2.5-flash"]
  else if model == "gpt-4" then ["claude-opus-4-5-20251101", "gemini-2.5-pro"]
  else if model == "claude-sonnet-4-5-20250929" then ["gpt-4o", "gemini-2.5-pro"]
  else if model == "claude-haiku-4-5-20251001" then ["gpt-4o-mini", "gemini-2.5-flash"]
  else if model == "gemini-2.5-flash" then ["gpt-4o-mini", "claude-haiku-4-5-20251001"]
  else if model == "gemini-2.5-pro" then ["gpt-4o", "claude-sonnet-4-5-20250929"]
  else []

/-- `NewManager`: register a provider for each non-empty API key. -/
def newManager (cfg : Config) : Manager :=
  { providers :=
      (if cfg.openAIKey != "" then ["openai"] else []) ++
      (if cfg.anthropicKey != "" then ["anthropic"] else []) ++
      (if cfg.geminiKey != "" then ["google"] else [])
    failover := setupFailoverChains }

/-- `detectProvider`: provider identity from the model-name prefix. -/
def detectProvider (model : String) : String :=
  if goStrStartsWith model "gpt-" then "openai"
  else if goStrStartsWith model "claude-" then "anthropic"
  else if goStrStartsWith model "gemini-" then "google"
  else ""

/-- `GetProvider`: resolve a model to its configured provider's name, or an
error. -/
def managerGetProvider (m : Manager) (model : String) : Except String String :=
  let providerName := detectProvider model
  if providerName == "" then .error ("unknown model: " ++ model)
  else if m.providers.contains providerName then .ok providerName
  else .error ("provider " ++ providerName ++ " not configured (check API key)")

/-- `GetFailoverChain`: the static chain for `model`, filtered to fallbacks
whose provider is currently configured. -/
def managerGetFailoverChain (m : Manager) (model : String) : List String :=
  (m.failover model).filter fun fallbackModel =>
    m.providers.contains (detectProvider fallbackModel)

/-- `isRetryableError` (`manager.go` lines 148-154): substring search on the
error's message. -/
def isRetryableError (err : String) : Bool :=
  goStrContains err "429" || goStrContains err "rate limit" ||
    goStrContains err "timeout" || goStrContains err "status 5"

/-- The message of the error `anthropic.go` builds from a non-200 upstream
response: `fmt.Errorf("Anthropic API error (status %d): %s", status, body)`. -/
def anthropicAPIError (status : Nat) (body : String) : String :=
  "Anthropic API error (status " ++ Nat.repr status ++ "): " ++ body

/-- Modelled from the spec (§4.4 step 3 / §7): the classification the spec
says is carried with an upstream HTTP error — retryable iff the status is
429 (rate-limited) or 5xx (server error).  Kept separate from the source's
`isRetryableError` so the two can be compared. -/
def specRetryableClass (status : Nat) : Bool :=
  status == 429 || (500 ≤ status && status < 600)

/-- Result of `Manager.ChatCompletion`, plus the trace of provider
invocations `(providerName, request)` actually performed, in order. -/
structure ManagerResult where
  resp : Option ChatResponse
  provider : String
  failoverUsed : Bool
  err : Option String
  trace : List (String × ChatRequest)
  deriving DecidableEq, Repr

/-- The fallback loop of `ChatCompletion` (`manager.go` lines 130-142):
substitute the fallback model into the request, skip fallbacks whose
provider cannot be resolved, return the first success.  Yields the
successful `(response, providerName)` if any, and the trace of provider
calls made. -/
def runFallbacks (m : Manager) (call : String → ChatRequest → Except String ChatResponse)
    (req : ChatRequest) :
    List String → Option (ChatResponse × String) × List (String × ChatRequest)
  | [] => (none, [])
  | fallbackModel :: rest =>
    let req' := { req with model := fallbackModel }
    match managerGetProvider m fallbackModel with
    | .error _ => runFallbacks m call req' rest
    | .ok providerName =>
      match call providerName req' with
      | .ok resp => (some (resp, providerName), [(providerName, req')])
      | .error _ =>
        let (r, t) := runFallbacks m call req' rest
        (r, (providerName, req') :: t)

/-- `Manager.ChatCompletion` (`manager.go` lines 107-145): primary attempt,
retryability check, fallback traversal, exhaustion error. -/
def managerChat (m : Manager) (call : String → ChatRequest → Except String ChatResponse)
    (req : ChatRequest) : ManagerResult :=
  let originalModel := req.model
  let originalProvider := detectProvider originalModel
  match managerGetProvider m req.model with
  | .error e => { resp := none, provider := "", failoverUsed := false, err := some e, trace := [] }
  | .ok providerName =>
    match call providerName req with
    | .ok resp =>
      { resp := some resp, provider := providerName, failoverUsed := false, err := none,
        trace := [(providerName, req)] }
    | .error e =>
      if !isRetryableError e then
        { resp := none, provider := providerName, failoverUsed := false, err := some e,
          trace := [(providerName, req)] }
      else
        match runFallbacks m call req (managerGetFailoverChain m originalModel) with
        | (some (resp, fallbackProvider), ftrace) =>
          { resp := some resp, provider := fallbackProvider, failoverUsed := true, err := none,
            trace := (providerName, req) :: ftrace }
        | (none, ftrace) =>
          { resp := none, provider := originalProvider, failoverUsed := false,
            err := some ("all providers failed for model " ++ originalModel),
            trace := (providerName, req) :: ftrace }

/-! ## Anthropic request translation (`anthropic.go`)

```go
func (p *AnthropicProvider) convertRequest(req ChatRequest) (AnthropicRequest, string) {
    anthropicReq := AnthropicRequest{ Model: req.Model, Messages: []AnthropicMessage{},
        MaxTokens: 4096, Temperature: req.Temperature }
    if req.MaxTokens != nil && *req.MaxTokens > 0 { anthropicReq.MaxTokens = *req.MaxTokens }
    var systemPrompt string
    for _, msg := range req.Messages {
        if msg.Role == "system" { systemPrompt = msg.Content }
        else { anthropicReq.Messages = append(anthropicReq.Messages, ...) }
    }
    return anthropicReq, systemPrompt
}
```

and in `ChatCompletion`:
`if systemPrompt != "" { anthropicReq.System = systemPrompt }`. -/

/-- The Anthropic wire request (`AnthropicRequest`); Anthropic messages have
the same `{role, content}` shape as unified messages, so `ChatMessage` is
reused. -/
structure AnthropicRequest where
  model : String
  messages : List ChatMessage
  maxTokens : Int
  temperature : Option (GoPtr Rat)
  system : String
  stream : Bool
  deriving DecidableEq, Repr

/-- `convertRequest`: the outgoing Anthropic request (with `System` still
empty) and the extracted system prompt. -/
def convertRequest (req : ChatRequest) : AnthropicRequest × String :=
  let base : AnthropicRequest :=
    { model := req.model, messages := [], maxTokens := 4096,
      temperature := req.temperature, system := "", stream := false }
  let base :=
    match req.maxTokens with
    | some p => if p.val > 0 then { base with maxTokens := p.val } else base
    | none => base
  let acc := req.messages.foldl
    (fun (acc : List ChatMessage × String) msg =>
      if msg.role == "system" then (acc.1, msg.content)
      else (acc.1 ++ [msg], acc.2))
    ([], "")
  ({ base with messages := acc.1 }, acc.2)

/-- The request `AnthropicProvider.ChatCompletion` actually sends: the
converted request with the system prompt copied into the top-level `System`
field when non-empty (`anthropic.go` lines 76-79). -/
def anthropicSentRequest (req : ChatRequest) : AnthropicRequest :=
  let (anthropicReq, systemPrompt) := convertRequest req
  if systemPrompt != "" then { anthropicReq with system := systemPrompt }
  else anthropicReq

/-- The content of the last message of a list, or the default `d` when the
list is empty. -/
def lastContentD (d : String) : List ChatMessage → String
  | [] => d
  | m :: rest => lastContentD m.content rest

/-- Modelled from the spec (§4.1): "if multiple system messages exist, the
last one wins" — the content of the last `system`-role message, or `""` when
there is none.  Kept separate from the source translation for comparison. -/
def lastSystemContent (msgs : List ChatMessage) : String :=
  lastContentD "" (msgs.filter fun m => m.role == "system")

/-! ## Rate limiter (`internal/shared/redis`, `CheckRateLimit`)

The store holds at most the one counter key `ratelimit:<apiKeyID>`; its
state is the counter value together with its optional expiry instant
(Redis keys touched only by `INCR` have no TTL).  Time is an explicit
`now : Nat`, in seconds; `time.Minute` is 60.  Each store primitive
(`GET`, `SET`, `INCR`, `EXPIRE`) is atomic; `CheckRateLimit` is their
*sequential composition*, which is what lets distinct executions
interleave between the `GET` and the write. -/

/-- The counter key's state: `none` when absent, otherwise the count and
its optional expiry instant. -/
structure RLStore where
  entry : Option (Int × Option Nat)
  deriving DecidableEq, Repr

/-- The live entry at instant `now`: an entry whose expiry has passed is
gone (Redis expires lazily but atomically with each access). -/
def rlLive (s : RLStore) (now : Nat) : Option (Int × Option Nat) :=
  match s.entry with
  | some (c, some e) => if now < e then some (c, some e) else none
  | some (c, none) => some (c, none)
  | none => none

/-- Redis `GET` (parsed as an integer, `.Int()`). -/
def rlGet (s : RLStore) (now : Nat) : Option Int :=
  (rlLive s now).map Prod.fst

/-- Redis `SET key v EX ttl`. -/
def rlSet (_ : RLStore) (now : Nat) (v : Int) (ttl : Nat) : RLStore :=
  ⟨some (v, some (now + ttl))⟩

/-- Redis `INCR`: increments a live entry keeping its TTL; on an absent or
expired key, creates the counter at 1 with no TTL.  Returns the new value. -/
def rlIncr (s : RLStore) (now : Nat) : Int × RLStore :=
  match rlLive s now with
  | some (c, e) => (c + 1, ⟨some (c + 1, e)⟩)
  | none => (1, ⟨some (1, none)⟩)

/-- Redis `EXPIRE key ttl`: sets the TTL of a live entry; no-op otherwise. -/
def rlExpire (s : RLStore) (now : Nat) (ttl : Nat) : RLStore :=
  match rlLive s now with
  | some (c, _) => ⟨some (c, some (now + ttl))⟩
  | none => s

/-- The branch `CheckRateLimit` runs after its initial `GET`, on the store
as found at write time (`db.go` lines 224-257).  `obs` is the value the
`GET` observed — in the sequential code the current count, but a concurrent
interleaving can make it stale. -/
def rlCommitPhase (obs : Option Int) (s : RLStore) (now : Nat) (limit : Int) :
    Bool × Int × RLStore :=
  match obs with
  | none => (false, limit - 1, rlSet s now 1 60)
  | some count =>
    if count ≥ limit then (true, 0, s)
    else
      let (newCount, s') := rlIncr s now
      let s'' := if newCount == 1 then rlExpire s' now 60 else s'
      let remaining := limit - newCount
      (false, if remaining < 0 then 0 else remaining, s'')

/-- `CheckRateLimit` run without interference: the `GET` and the commit
branch see the same store.  Returns `(exceeded, remaining, store')`. -/
def checkRateLimit (s : RLStore) (now : Nat) (limit : Int) : Bool × Int × RLStore :=
  rlCommitPhase (rlGet s now) s now limit

/-- A sequence of uninterfered `CheckRateLimit` calls at the given instants;
returns the `(exceeded, remaining)` pairs in order and the final store. -/
def runChecks (s : RLStore) (limit : Int) : List Nat → List (Bool × Int) × RLStore
  | [] => ([], s)
  | t :: ts =>
    let (exceeded, remaining, s') := checkRateLimit s t limit
    let (results, sFinal) := runChecks s' limit ts
    ((exceeded, remaining) :: results, sFinal)

/-- Two `CheckRateLimit` executions A and B against the same key,
interleaved at store-operation granularity as `GET_A; GET_B; write_A;
write_B`: both `GET`s happen before either commit.  Returns A's and B's
`exceeded` flags and the final store. -/
def rlInterleavedRun (limit : Int) (now : Nat) : Bool × Bool × RLStore :=
  let s0 : RLStore := ⟨none⟩
  let obsA := rlGet s0 now
  let obsB := rlGet s0 now
  let (exceededA, _, s1) := rlCommitPhase obsA s0 now limit
  let (exceededB, _, s2) := rlCommitPhase obsB s1 now limit
  (exceededA, exceededB, s2)

/-! ## Rate-limit middleware (`middleware.go`, `RateLimitMiddleware`)

The middleware's observable outcome: whether the wrapped handler ran, the
response headers it set, and the error status it wrote (if any).  The
API-key identity comes from the request context (`none` when absent), and
the outcome of the `m.redis.CheckRateLimit` call — including store/transport
failure — is an explicit argument. -/

/-- The policy attributes of a resolved API key (`models.APIKey`). -/
structure APIKey where
  id : String
  rateLimitPerMinute : Int
  cacheEnabled : Bool
  cacheTTLSeconds : Int
  deriving DecidableEq, Repr

/-- The middleware's observable outcome. -/
structure MWResult where
  nextCalled : Bool
  headers : List (String × String)
  status : Option Nat
  deriving DecidableEq, Repr

/-- `RateLimitMiddleware` (`middleware.go` lines 59-89), given the API key
from the context and the result of the `CheckRateLimit` call. -/
def rateLimitMiddleware (apiKey : Option APIKey)
    (checkResult : Except String (Bool × Int)) : MWResult :=
  match apiKey with
  | none => { nextCalled := true, headers := [], status := none }
  | some k =>
    let limit := if k.rateLimitPerMinute ≤ 0 then 100 else k.rateLimitPerMinute
    match checkResult with
    | .error _ => { nextCalled := true, headers := [], status := none }
    | .ok (exceeded, remaining) =>
      let headers := [("X-RateLimit-Limit", toString limit),
                      ("X-RateLimit-Remaining", toString remaining)]
      if exceeded then
        { nextCalled := false, headers := headers ++ [("Retry-After", "60")],
          status := some 429 }
      else
        { nextCalled := true, headers := headers, status := none }

/-! ## Chat handler (`handlers`, `HandleChatCompletion`)

The handler's interactions with the outside world — cache reads/writes,
provider invocations, the detached log write — are reified as an `Effect`
trace; the outcomes of those interactions (cache content, provider
responses, pricing rows, stream events) are supplied by a `World` oracle.
Request parsing and authentication have already happened (the auth
middleware put the `APIKey` on the context); wall-clock latency is not
modelled (recorded as 0). -/

/-- The structured log record (`models.GatewayLog`), restricted to the
fields `logRequest` fills. -/
structure GatewayLog where
  apiKeyID : String
  model : String
  provider : String
  costUSD : Rat
  promptTokens : Int
  completionTokens : Int
  totalTokens : Int
  cacheHit : Bool
  failoverUsed : Bool
  statusCode : Nat
  errorMessage : Option String
  deriving DecidableEq, Repr

/-- `logRequest` (`chat.go`): build the record handed to the detached
database write. -/
def mkGatewayLog (apiKey : APIKey) (req : ChatRequest) (resp : Option ChatResponse)
    (provider : String) (cacheHit failoverUsed : Bool) (err : Option String) :
    GatewayLog :=
  { apiKeyID := apiKey.id, model := req.model, provider := provider
    costUSD := match resp with | some r => r.costUSD | none => 0
    promptTokens := match resp with | some r => r.usage.promptTokens | none => 0
    completionTokens := match resp with | some r => r.usage.completionTokens | none => 0
    totalTokens := match resp with | some r => r.usage.totalTokens | none => 0
    cacheHit := cacheHit, failoverUsed := failoverUsed
    statusCode := if err.isSome then 500 else 200
    errorMessage := err }

/-- An externally visible action of the handler, in program order. -/
inductive Effect where
  | cacheGet (req : ChatRequest)
  | cacheSet (req : ChatRequest) (resp : ChatResponse) (ttlSeconds : Int)
  | providerCall (provider : String) (req : ChatRequest)
  | providerStream (provider : String) (req : ChatRequest)
  | logRecord (log : GatewayLog)
  deriving DecidableEq, Repr

/-- Is the effect a cache read or write? -/
def Effect.touchesCache : Effect → Bool
  | .cacheGet _ => true
  | .cacheSet _ _ _ => true
  | _ => false

/-- The cache store as an association list from fingerprint to stored
response (first binding wins, so a `cacheSet` prepend is the
last-writer-wins overwrite of `cache.Set`). -/
def applyCacheEffects (sha : String → String) (st : List (String × ChatResponse)) :
    List Effect → List (String × ChatResponse)
  | [] => st
  | .cacheSet req resp _ :: rest =>
    applyCacheEffects sha ((generateCacheKey sha req, resp) :: st) rest
  | _ :: rest => applyCacheEffects sha st rest

/-- A pricing row (`models.ModelPricing`), rationals for the Go float64
prices. -/
structure ModelPricing where
  inputPer1kTokens : Rat
  outputPer1kTokens : Rat
  deriving DecidableEq, Repr

/-- `calculateCost` (`chat.go` lines 182-192): `(0, err)` when the pricing
lookup fails, otherwise
`prompt/1000 * input_price + completion/1000 * output_price`. -/
def calculateCost (lookup : Except String ModelPricing) (usage : Usage) :
    Rat × Option String :=
  match lookup with
  | .error e => (0, some e)
  | .ok pricing =>
    ((usage.promptTokens : Rat) / 1000 * pricing.inputPer1kTokens +
       (usage.completionTokens : Rat) / 1000 * pricing.outputPer1kTokens, none)

/-- One upstream stream event after normalization (an
`openai.ChatCompletionStreamResponse`): a content delta and optional usage. -/
structure StreamChunk where
  content : String
  usage : Option Usage
  deriving DecidableEq, Repr

/-- Oracle for everything outside the handler: cache lookup outcomes,
provider call outcomes, pricing rows, and the streaming transport. -/
structure World where
  cacheGetResult : ChatRequest → Except String ChatResponse
  call : String → ChatRequest → Except String ChatResponse
  pricing : String → String → Except String ModelPricing
  streamStart : String → ChatRequest → Except String Unit
  chunks : List StreamChunk
  streamErr : Option String

/-- The handler's observable outcome: HTTP status, JSON body (non-streaming
success only), headers, and the effect trace. -/
structure HandlerOutput where
  status : Nat
  body : Option ChatResponse
  headers : List (String × String)
  effects : List Effect
  deriving Repr

/-- The SSE headers `handleStreamingChat` sets up front. -/
def sseHeaders : List (String × String) :=
  [("Content-Type", "text/event-stream"), ("Cache-Control", "no-cache"),
   ("Connection", "keep-alive"), ("X-Accel-Buffering", "no")]

/-- `totalTokens` after the `stream.Recv` loop: each chunk carrying usage
overwrites the running value (`chat.go` lines 157-160). -/
def streamTotalTokens (chunks : List StreamChunk) : Int :=
  chunks.foldl (fun acc c => match c.usage with
    | some u => u.totalTokens
    | none => acc) 0

/-- A `ChatResponse` whose fields are all Go zero values. -/
def zeroChatResponse : ChatResponse :=
  { id := "", object := "", created := 0, model := "", choices := [],
    usage := ⟨0, 0, 0⟩, latencyMs := 0, costUSD := 0 }

/-- `handleStreamingChat` (`chat.go` lines 113-179).  On clean end of
stream it builds `usage = openai.Usage{TotalTokens: totalTokens}`, computes
the cost, and issues the detached log write; a mid-stream receive error
returns after writing an error frame, without logging. -/
def handleStreamingChat (m : Manager) (w : World) (apiKey : APIKey)
    (req : ChatRequest) : HandlerOutput :=
  match managerGetProvider m req.model with
  | .error _ => { status := 500, body := none, headers := sseHeaders, effects := [] }
  | .ok providerName =>
    match w.streamStart providerName req with
    | .error _ =>
      { status := 500, body := none, headers := sseHeaders,
        effects := [.providerStream providerName req] }
    | .ok _ =>
      match w.streamErr with
      | some _ =>
        { status := 200, body := none, headers := sseHeaders,
          effects := [.providerStream providerName req] }
      | none =>
        let usage : Usage :=
          { promptTokens := 0, completionTokens := 0,
            totalTokens := streamTotalTokens w.chunks }
        let cost := (calculateCost (w.pricing providerName req.model) usage).1
        let resp := { zeroChatResponse with usage := usage, costUSD := cost }
        let log := mkGatewayLog apiKey req (some resp) providerName false false none
        { status := 200, body := none, headers := sseHeaders,
          effects := [.providerStream providerName req, .logRecord log] }

/-- The non-streaming response headers (`chat.go` lines 96-103); latency is
recorded as 0 (wall clock not modelled) and `X-Cost-USD` carries the
rational cost. -/
def respHeaders (cacheHit : Bool) (resp : ChatResponse) (provider : String)
    (failoverUsed : Bool) : List (String × String) :=
  [("Content-Type", "application/json"),
   ("X-Cache-Hit", if cacheHit then "true" else "false"),
   ("X-Cost-USD", toString resp.costUSD),
   ("X-Provider", provider),
   ("X-Latency-Ms", "0")] ++
    (if failoverUsed then [("X-Failover", "true")] else [])

/-- `HandleChatCompletion` (`chat.go` lines 33-110): streaming requests are
diverted to `handleStreamingChat` before any cache interaction; otherwise
cache read (when enabled) → provider dispatch on miss → cost → cache
write-through (when enabled) → headers, log, body. -/
def handleChatCompletion (m : Manager) (w : World) (apiKey : APIKey)
    (req : ChatRequest) : HandlerOutput :=
  if req.stream then handleStreamingChat m w apiKey req
  else
    let cacheProbe :=
      if apiKey.cacheEnabled then
        match w.cacheGetResult req with
        | .ok r => (some { r with costUSD := 0 }, [Effect.cacheGet req])
        | .error _ => (none, [Effect.cacheGet req])
      else (none, [])
    match cacheProbe with
    | (some resp, cacheEffects) =>
      let log := mkGatewayLog apiKey req (some resp) "" true false none
      { status := 200, body := some resp,
        headers := respHeaders true resp "" false,
        effects := cacheEffects ++ [.logRecord log] }
    | (none, cacheEffects) =>
      let mr := managerChat m w.call req
      let callEffects := mr.trace.map fun pr => Effect.providerCall pr.1 pr.2
      match mr.resp, mr.err with
      | _, some e =>
        let log := mkGatewayLog apiKey req none mr.provider false mr.failoverUsed (some e)
        { status := 500, body := none, headers := [],
          effects := cacheEffects ++ callEffects ++ [.logRecord log] }
      | some resp0, none =>
        let cost := (calculateCost (w.pricing mr.provider req.model) resp0.usage).1
        let resp := { resp0 with costUSD := cost }
        let setEffects :=
          if apiKey.cacheEnabled then
            [Effect.cacheSet req resp apiKey.cacheTTLSeconds]
          else []
        let log := mkGatewayLog apiKey req (some resp) mr.provider false mr.failoverUsed none
        { status := 200, body := some resp,
          headers := respHeaders false resp mr.provider mr.failoverUsed,
          effects := cacheEffects ++ callEffects ++ setEffects ++ [.logRecord log] }
      | none, none =>
        { status := 500, body := none, headers := [],
          effects := cacheEffects ++ callEffects }

/-! ## Theorems -/

/-- A request with `temperature = 0.7` held in a pointer at heap address
`0x1`; every optional field value as a caller would send it. -/
def cacheProbeA : ChatRequest :=
  { model := "gpt-4o", messages := [{ role := "user", content := "hi" }],
    temperature := some { addr := 1, val := 7/10 }, maxTokens := none,
    topP := none, stream := false }

/-- The same request, its temperature value `0.7` held in a pointer at heap
address `0x2`. -/
def cacheProbeB : ChatRequest :=
  { cacheProbeA with temperature := some { addr := 2, val := 7/10 } }

/-- C1: fails on the code.  `generateCacheKey` formats the optional
`*float32`/`*int` fields with `%v`, which for a pointer to a scalar prints
the heap address, not the value; so two requests identical in model,
messages, temperature, max_tokens and top_p values — differing only in
which pointer object holds the temperature — feed *different* strings to
SHA-256 and get different fingerprints. -/
theorem c1_fingerprint_depends_on_pointer_address :
    (cacheProbeA.model = cacheProbeB.model ∧
     cacheProbeA.messages = cacheProbeB.messages ∧
     cacheProbeA.temperature.map GoPtr.val = cacheProbeB.temperature.map GoPtr.val ∧
     cacheProbeA.maxTokens = cacheProbeB.maxTokens ∧
     cacheProbeA.topP = cacheProbeB.topP ∧
     cacheProbeA.stream = cacheProbeB.stream) ∧
    keyData cacheProbeA ≠ keyData cacheProbeB :=
  ⟨⟨rfl, rfl, rfl, rfl, rfl, rfl⟩, by decide⟩

/-- C9: when the `CheckRateLimit` call against the store fails, the
middleware lets the request through untouched — no 429, no `X-RateLimit-*`
headers. -/
theorem c9_store_error_fails_open (k : APIKey) (e : String) :
    rateLimitMiddleware (some k) (.error e) =
      { nextCalled := true, headers := [], status := none } := rfl

/-- How many of the two interleaved checks were admitted. -/
def rlInterleavedAdmitted (limit : Int) (now : Nat) : Nat :=
  (if (rlInterleavedRun limit now).1 then 0 else 1) +
    (if (rlInterleavedRun limit now).2.1 then 0 else 1)

/-- C7 counterexample: with limit 1, interleaving two `CheckRateLimit`
executions as `GET;GET;SET;SET` admits both — the admitted count exceeds
the limit, so the check-and-increment is *not* race-free. -/
theorem c7_interleaving_breaks_limit : ¬ rlInterleavedAdmitted 1 0 ≤ 1 := by decide

/-- C7 amended: `CheckRateLimit` is a separate `GET` followed by a
conditional `SET`/`INCR` (`rlCommitPhase` after `rlGet`), not one atomic
increment-with-TTL; run without interference the two calls at limit 1 admit
exactly the first, but the `GET;GET;SET;SET` interleaving of the same two
calls admits both. -/
theorem c7_get_then_set_races :
    rlInterleavedAdmitted 1 0 = 2 ∧
    (runChecks ⟨none⟩ 1 [0, 1]).1.map Prod.fst = [false, true] := by decide

/-- C2 counterexample: a permanent-class upstream failure — HTTP 400, whose
body happens to mention the word "timeout" — is classified retryable by the
substring test, and the orchestrator does attempt the fallback chain for
it. -/
theorem c2_permanent_error_triggers_fallback :
    specRetryableClass 400 = false ∧
    isRetryableError (anthropicAPIError 400 "unsupported parameter: timeout") = true ∧
    (managerChat (newManager { openAIKey := "sk-a", anthropicKey := "sk-b", geminiKey := "sk-c" })
        (fun p _ =>
          if p == "anthropic"
          then .error (anthropicAPIError 400 "unsupported parameter: timeout")
          else .ok zeroChatResponse)
        { model := "claude-sonnet-4-5-20250929", messages := [{ role := "user", content := "hi" }],
          temperature := none, maxTokens := none, topP := none,
          stream := false }).failoverUsed = true := by decide

/-- Any string whose status-prefix part already contains `"status 5"` stays
retryable whatever the upstream body text is. -/
theorem anthropic_5xx_prefix_contains :
    ∀ s, s < 600 → 500 ≤ s →
      goStrContains ("Anthropic API error (status " ++ Nat.repr s ++ "): ") "status 5" = true := by
  set_option maxRecDepth 100000 in decide

/-- C2 amended: retryability is decided by substring search on the error's
message (`"429"`, `"rate limit"`, `"timeout"`, `"status 5"`), not by a
classification carried with the error.  Upstream HTTP errors whose status
the spec classifies as retryable (429 or 5xx) always match, because the
provider formats the status into the message; but the substring test also
fires on permanent errors whose text merely contains one of the markers. -/
theorem c2_http_retryable_class_matches (status : Nat) (body : String)
    (hclass : specRetryableClass status = true) :
    isRetryableError (anthropicAPIError status body) = true := by
  simp only [specRetryableClass, Bool.or_eq_true, Bool.and_eq_true, beq_iff_eq,
    decide_eq_true_eq] at hclass
  have hmatch : goStrContains (anthropicAPIError status body) "429" = true ∨
      goStrContains (anthropicAPIError status body) "status 5" = true := by
    rcases hclass with h429 | ⟨h5, h6⟩
    · subst h429
      exact Or.inl (goStrContains_append_of_left _ body _ (by decide))
    · exact Or.inr (goStrContains_append_of_left _ body _
        (anthropic_5xx_prefix_contains status h6 h5))
  unfold isRetryableError
  rcases hmatch with h | h <;> simp [h]

/-- C2 amended, witnessed at a concrete 502 with an arbitrary body. -/
theorem c2_http_retryable_class_matches_witness :
    isRetryableError (anthropicAPIError 502 "upstream connect failure") = true :=
  c2_http_retryable_class_matches 502 "upstream connect failure" (by decide)

/-- C5: a primary-provider failure whose message matches none of the
retryability markers is returned unchanged, with `failoverUsed = false` and
a trace containing the primary call only — no fallback provider is ever
invoked. -/
theorem c5_permanent_error_immediate_return (m : Manager)
    (call : String → ChatRequest → Except String ChatResponse)
    (req : ChatRequest) (pname e : String)
    (hget : managerGetProvider m req.model = .ok pname)
    (hcall : call pname req = .error e)
    (hperm : isRetryableError e = false) :
    managerChat m call req =
      { resp := none, provider := pname, failoverUsed := false, err := some e,
        trace := [(pname, req)] } := by
  simp only [managerChat, hget, hcall, hperm, Bool.not_false, if_pos]

/-- C5 witnessed: a 400-class OpenAI error on `gpt-4o` comes straight back,
one provider call in the trace. -/
theorem c5_permanent_error_immediate_return_witness :
    managerChat (newManager { openAIKey := "sk-a", anthropicKey := "sk-b", geminiKey := "sk-c" })
        (fun _ _ => .error "OpenAI API error: 400 Bad Request")
        { model := "gpt-4o", messages := [{ role := "user", content := "hi" }],
          temperature := none, maxTokens := none, topP := none, stream := false } =
      { resp := none, provider := "openai", failoverUsed := false,
        err := some "OpenAI API error: 400 Bad Request",
        trace := [("openai",
          { model := "gpt-4o", messages := [{ role := "user", content := "hi" }],
            temperature := none, maxTokens := none, topP := none, stream := false })] } :=
  c5_permanent_error_immediate_return _ _ _ _ _ rfl rfl (by decide)

theorem chatRequest_model_update (req : ChatRequest) (a b : String) :
    ({ ({ req with model := a } : ChatRequest) with model := b } : ChatRequest) =
      { req with model := b } := by
  cases req
  rfl

/-- The provider invocations the fallback loop performs for a chain
segment: one call per fallback whose provider resolves, in chain order,
with the fallback model substituted into the request. -/
def fallbackCalls (m : Manager) (req : ChatRequest) :
    List String → List (String × ChatRequest)
  | [] => []
  | x :: rest =>
    match managerGetProvider m x with
    | .ok pn => (pn, { req with model := x }) :: fallbackCalls m req rest
    | .error _ => fallbackCalls m req rest

theorem fallbackCalls_model_update (m : Manager) (req : ChatRequest) (a : String)
    (l : List String) :
    fallbackCalls m { req with model := a } l = fallbackCalls m req l := by
  induction l with
  | nil => rfl
  | cons x xs ih =>
    cases hgp : managerGetProvider m x <;>
      simp [fallbackCalls, hgp, ih, chatRequest_model_update]

/-- The fallback loop returns the first fallback whose (resolvable)
provider call succeeds, having called — in chain order, with the fallback
model substituted — exactly the resolvable fallbacks before it. -/
theorem runFallbacks_first_success (m : Manager)
    (call : String → ChatRequest → Except String ChatResponse)
    (resp : ChatResponse) (fb fpname : String) (post : List String) :
    ∀ (pre : List String) (req : ChatRequest),
      (∀ x ∈ pre, ∀ pn, managerGetProvider m x = .ok pn →
        ∃ er, call pn { req with model := x } = .error er) →
      managerGetProvider m fb = .ok fpname →
      call fpname { req with model := fb } = .ok resp →
      runFallbacks m call req (pre ++ fb :: post) =
        (some (resp, fpname),
          fallbackCalls m req pre ++ [(fpname, { req with model := fb })]) := by
  intro pre
  induction pre with
  | nil =>
    intro req _ hfb hok
    simp [runFallbacks, hfb, hok, fallbackCalls]
  | cons p pre' ih =>
    intro req hpre hfb hok
    have hcol : ∀ x : String,
        ({ ({ req with model := p } : ChatRequest) with model := x } : ChatRequest) =
          { req with model := x } := chatRequest_model_update req p
    cases hgp : managerGetProvider m p with
    | error e =>
      have ih' := ih { req with model := p }
        (fun x hx pn hpn => by
          rw [hcol x]
          exact hpre x (List.mem_cons_of_mem _ hx) pn hpn)
        hfb (by rw [hcol fb]; exact hok)
      simp only [List.cons_append, runFallbacks, hgp, List.append_eq]
      rw [ih', fallbackCalls_model_update, hcol fb]
      simp [fallbackCalls, hgp]
    | ok pn =>
      obtain ⟨er, her⟩ := hpre p (List.mem_cons_self p pre') pn hgp
      have ih' := ih { req with model := p }
        (fun x hx pn' hpn' => by
          rw [hcol x]
          exact hpre x (List.mem_cons_of_mem _ hx) pn' hpn')
        hfb (by rw [hcol fb]; exact hok)
      simp only [List.cons_append, runFallbacks, hgp, her, List.append_eq]
      rw [ih', fallbackCalls_model_update, hcol fb]
      simp [fallbackCalls, hgp]

/-- C4: when the primary call fails retryably and some fallback in the
(configured-provider-filtered) chain succeeds, the orchestrator walks the
chain in order with the fallback model substituted into the request, and
returns the first succeeding fallback's response, that fallback's provider
identity, and `failoverUsed = true`. -/
theorem c4_failover_returns_first_success (m : Manager)
    (call : String → ChatRequest → Except String ChatResponse)
    (req : ChatRequest) (pname e : String) (pre : List String) (fb fpname : String)
    (post : List String) (resp : ChatResponse)
    (hget : managerGetProvider m req.model = .ok pname)
    (hcall : call pname req = .error e)
    (hretry : isRetryableError e = true)
    (hchain : managerGetFailoverChain m req.model = pre ++ fb :: post)
    (hpre : ∀ x ∈ pre, ∀ pn, managerGetProvider m x = .ok pn →
      ∃ er, call pn { req with model := x } = .error er)
    (hfb : managerGetProvider m fb = .ok fpname)
    (hok : call fpname { req with model := fb } = .ok resp) :
    managerChat m call req =
      { resp := some resp, provider := fpname, failoverUsed := true, err := none,
        trace := (pname, req) ::
          (fallbackCalls m req pre ++ [(fpname, { req with model := fb })]) } := by
  simp only [managerChat, hget, hcall, hretry, Bool.not_true]
  rw [hchain, runFallbacks_first_success m call resp fb fpname post pre req hpre hfb hok]
  rfl

/-- The request of C4's witness scenario. -/
def failoverProbeReq : ChatRequest :=
  { model := "gpt-4o", messages := [{ role := "user", content := "2+2?" }],
    temperature := none, maxTokens := none, topP := none, stream := false }

/-- C4 witnessed: `gpt-4o` fails with a 503, the first fallback
`claude-sonnet-4-5-20250929` succeeds; the result carries the fallback's
provider, `failoverUsed = true`, and a response echoing the fallback
model. -/
theorem c4_failover_returns_first_success_witness :
    managerChat (newManager { openAIKey := "sk-a", anthropicKey := "sk-b", geminiKey := "sk-c" })
        (fun p r =>
          if p == "openai" then .error "OpenAI API error: status 503 Service Unavailable"
          else if p == "anthropic" then .ok { zeroChatResponse with model := r.model }
          else .error "unreached")
        failoverProbeReq =
      { resp := some { zeroChatResponse with model := "claude-sonnet-4-5-20250929" },
        provider := "anthropic", failoverUsed := true, err := none,
        trace := [("openai", failoverProbeReq),
          ("anthropic", { failoverProbeReq with model := "claude-sonnet-4-5-20250929" })] } :=
  c4_failover_returns_first_success _ _ _ _ _ []
    "claude-sonnet-4-5-20250929" _ ["gemini-2.5-pro"] _
    rfl rfl (by decide) rfl
    (fun x hx => absurd hx (List.not_mem_nil x))
    rfl rfl

/-- The message loop of `convertRequest`, characterised: non-system
messages are appended in order, each system message's content overwrites
the running system prompt. -/
theorem convert_foldl_spec (msgs : List ChatMessage) :
    ∀ (acc1 : List ChatMessage) (acc2 : String),
      msgs.foldl
        (fun (acc : List ChatMessage × String) msg =>
          if msg.role == "system" then (acc.1, msg.content)
          else (acc.1 ++ [msg], acc.2))
        (acc1, acc2) =
      (acc1 ++ msgs.filter (fun m => !(m.role == "system")),
       lastContentD acc2 (msgs.filter fun m => m.role == "system")) := by
  induction msgs with
  | nil => intro acc1 acc2; simp [lastContentD]
  | cons m ms ih =>
    intro acc1 acc2
    cases h : m.role == "system" with
    | true =>
      have h' : m.role = "system" := by simpa using h
      simp [List.filter_cons, h, h', lastContentD]
      simpa using ih acc1 m.content
    | false =>
      have h' : ¬ (m.role = "system") := by simpa using h
      simp [List.filter_cons, h, h']
      simpa [List.append_assoc] using ih (acc1 ++ [m]) acc2

theorem convertRequest_spec (req : ChatRequest) :
    (convertRequest req).1.messages =
        req.messages.filter (fun m => !(m.role == "system")) ∧
    (convertRequest req).2 = lastSystemContent req.messages ∧
    (convertRequest req).1.system = "" := by
  unfold convertRequest lastSystemContent
  simp only [convert_foldl_spec, List.nil_append]
  cases req.maxTokens with
  | none => simp
  | some p =>
    by_cases hp : p.val > 0 <;> simp [hp]

/-- C8: the Anthropic translation removes every `system`-role message from
the outgoing message list, forwards the other messages in their original
order, and puts the content of the *last* system message (overwrite, not
concatenation; `""` when there is none) in the top-level `system` field. -/
theorem c8_system_extracted_last_wins (req : ChatRequest) :
    (anthropicSentRequest req).messages =
        req.messages.filter (fun m => !(m.role == "system")) ∧
    (anthropicSentRequest req).system = lastSystemContent req.messages := by
  obtain ⟨h1, h2, h3⟩ := convertRequest_spec req
  unfold anthropicSentRequest
  cases hcr : convertRequest req with
  | mk areq sys =>
    rw [hcr] at h1 h2 h3
    by_cases hs : sys = ""
    · subst hs
      simp only [bne_self_eq_false]
      exact ⟨h1, h3.trans h2⟩
    · have : (sys != "") = true := bne_iff_ne.mpr hs
      simp only [this, if_pos]
      exact ⟨h1, h2⟩

/-- C3: a `stream=true` request is diverted to `handleStreamingChat` before
any cache interaction: its effect trace contains no cache read and no cache
write, and the cache store is left unchanged — whatever the caller's
`cache_enabled` policy flag says. -/
theorem c3_streaming_never_touches_cache (m : Manager) (w : World) (k : APIKey)
    (req : ChatRequest) (sha : String → String) (st : List (String × ChatResponse))
    (hs : req.stream = true) :
    ((handleChatCompletion m w k req).effects.all fun e => !e.touchesCache) = true ∧
    applyCacheEffects sha st (handleChatCompletion m w k req).effects = st := by
  have hh : handleChatCompletion m w k req = handleStreamingChat m w k req := by
    simp [handleChatCompletion, hs]
  rw [hh]
  unfold handleStreamingChat
  cases hgp : managerGetProvider m req.model with
  | error e => simp [hgp, Effect.touchesCache, applyCacheEffects]
  | ok pn =>
    cases hst : w.streamStart pn req with
    | error e => simp [hgp, hst, Effect.touchesCache, applyCacheEffects]
    | ok u =>
      cases herr : w.streamErr with
      | some e => simp [hgp, hst, herr, Effect.touchesCache, applyCacheEffects]
      | none => simp [hgp, hst, herr, Effect.touchesCache, applyCacheEffects]

/-- The oracle of the streaming witness scenarios: an empty cache, a
provider succeeding with the zero response, one pricing row, a clean
two-chunk stream whose last chunk carries usage. -/
def streamProbeWorld : World :=
  { cacheGetResult := fun _ => .error "key not found"
    call := fun _ _ => .ok zeroChatResponse
    pricing := fun _ _ => .ok { inputPer1kTokens := 5/2, outputPer1kTokens := 10 }
    streamStart := fun _ _ => .ok ()
    chunks := [{ content := "4", usage := none },
               { content := "", usage := some { promptTokens := 0, completionTokens := 0, totalTokens := 42 } }]
    streamErr := none }

/-- The streaming request of the witness scenarios. -/
def streamProbeReq : ChatRequest :=
  { model := "gpt-4o", messages := [{ role := "user", content := "2+2?" }],
    temperature := none, maxTokens := none, topP := none, stream := true }

/-- C3 witnessed on a concrete streaming request against a cache-enabled
key. -/
theorem c3_streaming_never_touches_cache_witness :
    ((handleChatCompletion (newManager { openAIKey := "sk-a", anthropicKey := "sk-b", geminiKey := "sk-c" })
        streamProbeWorld { id := "k1", rateLimitPerMinute := 60, cacheEnabled := true, cacheTTLSeconds := 300 }
        streamProbeReq).effects.all fun e => !e.touchesCache) = true ∧
    applyCacheEffects id []
      (handleChatCompletion (newManager { openAIKey := "sk-a", anthropicKey := "sk-b", geminiKey := "sk-c" })
        streamProbeWorld { id := "k1", rateLimitPerMinute := 60, cacheEnabled := true, cacheTTLSeconds := 300 }
        streamProbeReq).effects = [] :=
  c3_streaming_never_touches_cache _ _ _ _ id [] rfl

/-- C10: on a cleanly terminated streaming request the usage record handed
to cost computation and logging carries only `total_tokens`
(`prompt_tokens = completion_tokens = 0`), so — the pricing lookup
succeeding — the recorded cost is exactly 0. -/
theorem c10_streaming_cost_is_zero (m : Manager) (w : World) (k : APIKey)
    (req : ChatRequest) (pn : String) (p : ModelPricing)
    (hs : req.stream = true)
    (hgp : managerGetProvider m req.model = .ok pn)
    (hstart : w.streamStart pn req = .ok ())
    (herr : w.streamErr = none)
    (hpricing : w.pricing pn req.model = .ok p) :
    (handleChatCompletion m w k req).effects =
      [.providerStream pn req,
       .logRecord { apiKeyID := k.id, model := req.model, provider := pn,
                    costUSD := 0, promptTokens := 0, completionTokens := 0,
                    totalTokens := streamTotalTokens w.chunks,
                    cacheHit := false, failoverUsed := false,
                    statusCode := 200, errorMessage := none }] := by
  have hh : handleChatCompletion m w k req = handleStreamingChat m w k req := by
    simp [handleChatCompletion, hs]
  rw [hh]
  unfold handleStreamingChat
  simp only [hgp, hstart, herr]
  simp [calculateCost, hpricing, mkGatewayLog, zeroChatResponse]

/-- C10 witnessed: the concrete streaming scenario logs
`prompt = completion = 0`, `total = 42`, `cost = 0` although the pricing
row has non-zero prices. -/
theorem c10_streaming_cost_is_zero_witness :
    (handleChatCompletion (newManager { openAIKey := "sk-a", anthropicKey := "sk-b", geminiKey := "sk-c" })
        streamProbeWorld { id := "k1", rateLimitPerMinute := 60, cacheEnabled := true, cacheTTLSeconds := 300 }
        streamProbeReq).effects =
      [.providerStream "openai" streamProbeReq,
       .logRecord { apiKeyID := "k1", model := "gpt-4o", provider := "openai",
                    costUSD := 0, promptTokens := 0, completionTokens := 0,
                    totalTokens := 42,
                    cacheHit := false, failoverUsed := false,
                    statusCode := 200, errorMessage := none }] :=
  c10_streaming_cost_is_zero _ _ _ _ _
    { inputPer1kTokens := 5/2, outputPer1kTokens := 10 }
    rfl rfl rfl rfl rfl

/-- First check of a window: absent key ⇒ `SET key 1 EX 60`, admitted. -/
theorem checkRateLimit_empty (t : Nat) (L : Int) :
    checkRateLimit ⟨none⟩ t L = (false, L - 1, ⟨some (1, some (t + 60))⟩) := rfl

/-- An uninterfered check against a live counter below the limit: admitted,
counter incremented, expiry untouched. -/
theorem checkRateLimit_live_admit (c : Int) (e t : Nat) (L : Int)
    (ht : t < e) (hc1 : 1 ≤ c) (hcL : c < L) :
    checkRateLimit ⟨some (c, some e)⟩ t L =
      (false, if L - (c + 1) < 0 then 0 else L - (c + 1), ⟨some (c + 1, some e)⟩) := by
  have hnc : ¬ (c ≥ L) := not_le.mpr hcL
  have hne : (c + 1 == 1) = false := by
    simp only [beq_eq_false_iff_ne, ne_eq]
    omega
  simp [checkRateLimit, rlCommitPhase, rlGet, rlLive, rlIncr, ht, hnc, hne]

/-- An uninterfered check against a live counter at or above the limit:
rejected, store untouched. -/
theorem checkRateLimit_live_reject (c : Int) (e t : Nat) (L : Int)
    (ht : t < e) (hcL : L ≤ c) :
    checkRateLimit ⟨some (c, some e)⟩ t L = (true, 0, ⟨some (c, some e)⟩) := by
  have hc : c ≥ L := hcL
  simp [checkRateLimit, rlCommitPhase, rlGet, rlLive, ht, hc]

/-- While the counter stays below the limit and the window has not expired,
every check is admitted and the counter counts the checks. -/
theorem runChecks_admit_all (e : Nat) (L : Int) :
    ∀ (ts : List Nat) (c : Int),
      (∀ t ∈ ts, t < e) → 1 ≤ c → c + ts.length ≤ L →
      (runChecks ⟨some (c, some e)⟩ L ts).1.map Prod.fst =
          List.replicate ts.length false ∧
      (runChecks ⟨some (c, some e)⟩ L ts).2 = ⟨some (c + ts.length, some e)⟩ := by
  intro ts
  induction ts with
  | nil => intro c _ _ _; simp [runChecks]
  | cons t ts ih =>
    intro c hin hc1 hcl
    have ht : t < e := hin t (List.mem_cons_self t ts)
    simp only [List.length_cons] at hcl
    push_cast at hcl
    have hcL : c < L := by omega
    have step := checkRateLimit_live_admit c e t L ht hc1 hcL
    have harg1 : 1 ≤ c + 1 := by omega
    have harg2 : c + 1 + (ts.length : Int) ≤ L := by omega
    obtain ⟨ih1, ih2⟩ := ih (c + 1)
      (fun x hx => hin x (List.mem_cons_of_mem t hx))
      harg1 harg2
    constructor
    · simp only [runChecks, step, List.map_cons, ih1, List.length_cons,
        List.replicate_succ]
    · simp only [runChecks, step, ih2]
      have heq : c + 1 + (ts.length : Int) = c + ((t :: ts).length : Int) := by
        simp only [List.length_cons]
        push_cast
        ring
      rw [heq]

/-- `runChecks` splits over list append. -/
theorem runChecks_append (limit : Int) (bs : List Nat) :
    ∀ (as : List Nat) (s : RLStore),
      runChecks s limit (as ++ bs) =
        ((runChecks s limit as).1 ++ (runChecks (runChecks s limit as).2 limit bs).1,
         (runChecks (runChecks s limit as).2 limit bs).2) := by
  intro as
  induction as with
  | nil => intro s; simp [runChecks]
  | cons a as ih =>
    intro s
    rcases hc : checkRateLimit s a limit with ⟨exceeded, remaining, s'⟩
    simp only [List.cons_append, runChecks, hc, List.append_eq, ih s']

/-- C6: starting from an absent counter, `L+1` sequential checks inside one
window (`L = 1 + |ts|`) admit the first `L` and reject the `(L+1)`th with
`(exceeded, remaining) = (true, 0)`; the middleware turns that outcome into
HTTP 429 with a `Retry-After: 60` header; and at any instant past the
window's expiry the counter is absent and a further check is admitted. -/
theorem c6_rate_limit_window (t0 : Nat) (ts : List Nat) (tl tNext : Nat)
    (k : APIKey) (L : Int)
    (hL : L = 1 + (ts.length : Int))
    (hts : ∀ t ∈ ts, t < t0 + 60)
    (htl : tl < t0 + 60)
    (hnext : t0 + 60 ≤ tNext)
    (hk : k.rateLimitPerMinute = L) :
    (runChecks ⟨none⟩ L ((t0 :: ts) ++ [tl])).1.map Prod.fst =
        List.replicate (1 + ts.length) false ++ [true] ∧
    (runChecks ⟨none⟩ L ((t0 :: ts) ++ [tl])).1.getLast? = some (true, 0) ∧
    rateLimitMiddleware (some k) (.ok (true, 0)) =
      { nextCalled := false,
        headers := [("X-RateLimit-Limit", toString L),
                    ("X-RateLimit-Remaining", "0"), ("Retry-After", "60")],
        status := some 429 } ∧
    rlGet (runChecks ⟨none⟩ L ((t0 :: ts) ++ [tl])).2 tNext = none ∧
    (checkRateLimit (runChecks ⟨none⟩ L ((t0 :: ts) ++ [tl])).2 tNext L).1 = false := by
  obtain ⟨hadm1, hadm2⟩ := runChecks_admit_all (t0 + 60) L ts 1 hts (le_refl 1)
    (by omega)
  have hfirst := checkRateLimit_empty t0 L
  have hrun1 : runChecks ⟨none⟩ L (t0 :: ts) =
      ((false, L - 1) :: (runChecks ⟨some (1, some (t0 + 60))⟩ L ts).1,
       (runChecks ⟨some (1, some (t0 + 60))⟩ L ts).2) := by
    simp only [runChecks, hfirst]
  have hreject := checkRateLimit_live_reject (1 + (ts.length : Int)) (t0 + 60) tl L
    htl (le_of_eq hL)
  have hlast : runChecks (runChecks ⟨none⟩ L (t0 :: ts)).2 L [tl] =
      ([(true, 0)], ⟨some (1 + (ts.length : Int), some (t0 + 60))⟩) := by
    rw [hrun1]
    simp only [hadm2, runChecks, hreject]
  have hall := runChecks_append L [tl] (t0 :: ts) ⟨none⟩
  rw [hlast] at hall
  refine ⟨?_, ?_, ?_, ?_, ?_⟩
  · rw [hall, hrun1]
    simp only [List.map_append, List.map_cons, hadm1]
    rw [Nat.add_comm 1 ts.length, List.replicate_succ, List.cons_append]
    rfl
  · rw [hall]
    exact List.getLast?_concat _
  · have hL0 : ¬ (L ≤ 0) := by omega
    simp only [rateLimitMiddleware, hk, if_neg hL0]
    rfl
  · rw [hall]
    simp [rlGet, rlLive, not_lt.mpr hnext]
  · rw [hall]
    simp [checkRateLimit, rlCommitPhase, rlGet, rlLive, not_lt.mpr hnext]

/-- C6 witnessed: limit 3, four checks at seconds 0, 10, 20, 30, a fifth at
second 100. -/
theorem c6_rate_limit_window_witness :
    (runChecks ⟨none⟩ 3 (([0, 10, 20] : List Nat) ++ [30])).1.map Prod.fst =
        List.replicate 3 false ++ [true] ∧
    (runChecks ⟨none⟩ 3 (([0, 10, 20] : List Nat) ++ [30])).1.getLast? = some (true, 0) ∧
    rateLimitMiddleware
        (some { id := "k1", rateLimitPerMinute := 3, cacheEnabled := true, cacheTTLSeconds := 300 })
        (.ok (true, 0)) =
      { nextCalled := false,
        headers := [("X-RateLimit-Limit", toString (3 : Int)),
                    ("X-RateLimit-Remaining", "0"), ("Retry-After", "60")],
        status := some 429 } ∧
    rlGet (runChecks ⟨none⟩ 3 (([0, 10, 20] : List Nat) ++ [30])).2 100 = none ∧
    (checkRateLimit (runChecks ⟨none⟩ 3 (([0, 10, 20] : List Nat) ++ [30])).2 100 3).1 = false :=
  c6_rate_limit_window 0 [10, 20] 30 100
    { id := "k1", rateLimitPerMinute := 3, cacheEnabled := true, cacheTTLSeconds := 300 } 3
    (by decide) (by decide) (by decide) (by decide) rfl
